import Mathlib

/-!
# Verification of the govinfo-mcp tool layer

Shallow embedding of the request-building and response-shaping logic of the
govinfo-mcp server (`src/app/tools/*.py`).  Each tool validates the API key,
builds a query string or URL from its optional filters, issues one HTTP
request, and shapes the response.  The network itself is out of scope: we
embed the pure pre-network phase (key check, validation, query/URL
construction) and the pure response-shaping phase (result filtering, base64
wrapping, error-message selection), each as an executable Lean function
translated directly from the Python source.

Conventions:
* Python `str` is Lean `String`; an optional string parameter defaulting to
  `""` stays a `String` (Python truthiness `if s:` becomes `s ≠ ""`).
* Python `int | None` parameters become `Option Nat` (all the ints involved
  are constrained positive by their pydantic fields).
* The module-level `API_KEY = os.getenv("GOVINFO_API_KEY")` is a parameter
  `apiKey : Option String`; Python `if not API_KEY` is `apiKeyMissing apiKey`.
* Bytes (`response.content`) are `List Nat` with every element `< 256`.
-/

namespace GovInfo

/-- Python truthiness of `os.getenv` result: `None` and `""` are falsy. -/
def apiKeyMissing : Option String → Bool
  | none => true
  | some s => s = ""

/-- ASCII-wise model of Python `str.lower()` (the strings the tools lower are
ASCII format/type names). -/
def lowerStr (s : String) : String := ⟨s.data.map Char.toLower⟩

/-!
## Pre-network phase of every tool (claim C1)

Each tool body starts with the same guard; the three possible outcomes before
the first HTTP request are: raise `ValueError`, return a plain dict, or
proceed to validation and the HTTP request.
-/

/-- What a tool does before its first HTTP request when looking at the API
key: raise `ValueError(msg)`, return a dict without raising, or proceed. -/
inductive PreNetwork
  | raiseValueError (msg : String)
  | returnDict (entries : List (String × String))
  | proceed
deriving DecidableEq

/-- Whether the pre-network outcome is a raised `ValueError`. -/
def PreNetwork.isRaiseValueError : PreNetwork → Bool
  | .raiseValueError _ => true
  | _ => false

/-- The error message shared by the key guards of the tools. -/
def apiKeyErrorMsg : String := "GOVINFO_API_KEY not found in environment variables"

/-- Key guard of `get_collections` (collections.py lines 49-55). -/
def get_collections_preNetwork (apiKey : Option String) : PreNetwork :=
  if apiKeyMissing apiKey then .raiseValueError apiKeyErrorMsg else .proceed

/-- Key guard of `get_packages_by_collection` (packages.py lines 107-113). -/
def get_packages_by_collection_preNetwork (apiKey : Option String) : PreNetwork :=
  if apiKeyMissing apiKey then .raiseValueError apiKeyErrorMsg else .proceed

/-- Key guard of `get_package_summary` (packages.py lines 205-211). -/
def get_package_summary_preNetwork (apiKey : Option String) : PreNetwork :=
  if apiKeyMissing apiKey then .raiseValueError apiKeyErrorMsg else .proceed

/-- Key guard of `get_package_content` (packages.py lines 312-318). -/
def get_package_content_preNetwork (apiKey : Option String) : PreNetwork :=
  if apiKeyMissing apiKey then .raiseValueError apiKeyErrorMsg else .proceed

/-- Key guard of `get_published_packages` (published.py lines 57-63). -/
def get_published_packages_preNetwork (apiKey : Option String) : PreNetwork :=
  if apiKeyMissing apiKey then .raiseValueError apiKeyErrorMsg else .proceed

/-- Key guard of `get_published_range` (published.py lines 158-164). -/
def get_published_range_preNetwork (apiKey : Option String) : PreNetwork :=
  if apiKeyMissing apiKey then .raiseValueError apiKeyErrorMsg else .proceed

/-- Key guard of `get_related_packages` (related.py lines 47-53): unlike every
other tool it RETURNS an error dict instead of raising. -/
def get_related_packages_preNetwork (apiKey : Option String) : PreNetwork :=
  if apiKeyMissing apiKey then .returnDict [("error", apiKeyErrorMsg)] else .proceed

/-- Key guard of `get_granule_related` (related.py lines 121-127). -/
def get_granule_related_preNetwork (apiKey : Option String) : PreNetwork :=
  if apiKeyMissing apiKey then .raiseValueError apiKeyErrorMsg else .proceed

/-- Key guard of `search_packages` (search.py lines 66-72). -/
def search_packages_preNetwork (apiKey : Option String) : PreNetwork :=
  if apiKeyMissing apiKey then .raiseValueError apiKeyErrorMsg else .proceed

/-- Key guard of `advanced_search` (search.py lines 214-220). -/
def advanced_search_preNetwork (apiKey : Option String) : PreNetwork :=
  if apiKeyMissing apiKey then .raiseValueError apiKeyErrorMsg else .proceed

/-- Key guard of `search_statutes` (statutes.py lines 86-89). -/
def search_statutes_preNetwork (apiKey : Option String) : PreNetwork :=
  if apiKeyMissing apiKey then .raiseValueError apiKeyErrorMsg else .proceed

/-- Key guard of `get_uscode_title` (statutes.py lines 205-208); its message
differs from the others. -/
def get_uscode_title_preNetwork (apiKey : Option String) : PreNetwork :=
  if apiKeyMissing apiKey then .raiseValueError "GOVINFO_API_KEY not set" else .proceed

/-- Key guard of `get_public_laws_by_congress` (statutes.py lines 304-307). -/
def get_public_laws_by_congress_preNetwork (apiKey : Option String) : PreNetwork :=
  if apiKeyMissing apiKey then .raiseValueError apiKeyErrorMsg else .proceed

/-- Key guard of `get_statutes_at_large` (statutes.py lines 401-404). -/
def get_statutes_at_large_preNetwork (apiKey : Option String) : PreNetwork :=
  if apiKeyMissing apiKey then .raiseValueError apiKeyErrorMsg else .proceed

/-- Key guard of `get_statute_content` (statutes.py lines 486-489). -/
def get_statute_content_preNetwork (apiKey : Option String) : PreNetwork :=
  if apiKeyMissing apiKey then .raiseValueError apiKeyErrorMsg else .proceed

/-!
## search_packages query construction (claim C2)

search.py lines 74-97: starting from the user query, each present filter is
prefixed to the front, in source order collection, congress, docClass, title,
publishdate lower bound, publishdate upper bound.
-/

/-- The `/search` query string built by `search_packages`
(search.py lines 74-97). -/
def searchPackagesQueryStr (query collection : String) (congress : Option Nat)
    (docClass title startDate endDate : String) : String :=
  let sq := query
  let sq := if collection ≠ "" then "collection:" ++ collection ++ " AND " ++ sq else sq
  let sq := match congress with
    | some n => "congress:" ++ toString n ++ " AND " ++ sq
    | none => sq
  let sq := if docClass ≠ "" then "docClass:" ++ docClass ++ " AND " ++ sq else sq
  let sq := if title ≠ "" then "title:\"" ++ title ++ "\" AND " ++ sq else sq
  let sq := if startDate ≠ "" then "publishdate:>=" ++ startDate ++ " AND " ++ sq else sq
  let sq := if endDate ≠ "" then "publishdate:<=" ++ endDate ++ " AND " ++ sq else sq
  sq

/-!
## Statute query construction (claims C3, C8)
-/

/-- The fixed statute collection map of statutes.py lines 26-31, in insertion
order (Python dict iteration follows insertion order). -/
def STATUTE_COLLECTIONS : List (String × String) :=
  [("USCODE", "United States Code"),
   ("STATUTE", "Statutes at Large"),
   ("PLAW", "Public and Private Laws"),
   ("COMPS", "Statutes Compilations")]

/-- The four statute collection codes, in map order. -/
def statuteCollectionCodes : List String := STATUTE_COLLECTIONS.map Prod.fst

/-- The `/search` query string built by `search_statutes`
(statutes.py lines 91-126), or the `ValueError` message for an invalid
collection.  `sect` stands for the Python parameter `section` (a Lean
keyword). -/
def searchStatutesQuery (query collection : String) (congress : Option Nat)
    (titleNumber sect startDate endDate : String) : Except String String :=
  if collection ≠ "" ∧ ¬ statuteCollectionCodes.contains collection then
    .error ("Invalid collection '" ++ collection ++ "'. Must be one of: " ++
      String.intercalate ", " statuteCollectionCodes)
  else
    let sq := if collection ≠ "" then
        "collection:" ++ collection ++ " AND (" ++ query ++ ")"
      else
        "(" ++ String.intercalate " OR "
          (statuteCollectionCodes.map (fun code => "collection:" ++ code)) ++
          ") AND (" ++ query ++ ")"
    let sq := match congress with
      | some n => sq ++ " AND congress:" ++ toString n
      | none => sq
    let sq := if titleNumber ≠ "" then sq ++ " AND title:" ++ titleNumber else sq
    let sq := if sect ≠ "" then sq ++ " AND section:" ++ sect else sq
    let sq := if startDate ≠ "" then sq ++ " AND publishdate:[" ++ startDate ++ " TO *]" else sq
    let sq := if endDate ≠ "" then sq ++ " AND publishdate:[* TO " ++ endDate ++ "]" else sq
    .ok sq

/-- The `/search` query string built by `get_public_laws_by_congress`
(statutes.py lines 309-331), or the `ValueError` message for an invalid
`law_type`.  The Python `if/elif/else` chain over `law_type.lower()` is
rendered as the invalid case first, then the two valid branches. -/
def publicLawsQuery (congress : Nat)
    (lawType lawNumber startDate endDate : String) : Except String String :=
  let sq := "collection:PLAW AND congress:" ++ toString congress
  if lawType ≠ "" ∧ lowerStr lawType ≠ "public" ∧ lowerStr lawType ≠ "private" then
    .error ("Invalid law_type '" ++ lawType ++ "'. Must be 'public' or 'private'")
  else
    let sq := if lawType ≠ "" then
        (if lowerStr lawType = "public" then sq ++ " AND (docClass:public OR title:public)"
         else sq ++ " AND (docClass:private OR title:private)")
      else sq
    let sq := if lawNumber ≠ "" then sq ++ " AND " ++ lawNumber else sq
    let sq := if startDate ≠ "" then sq ++ " AND publishdate:[" ++ startDate ++ " TO *]" else sq
    let sq := if endDate ≠ "" then sq ++ " AND publishdate:[* TO " ++ endDate ++ "]" else sq
    .ok sq

/-!
## search_statutes client-side post-filter (claim C4)

statutes.py lines 150-157: when no explicit collection was requested and the
upstream response has a `results` key, the result list is filtered to the
four statute collections and `count` is recomputed.
-/

/-- One entry of the upstream `results` list: its `collectionCode` key (absent
allowed) and the rest of the entry, kept opaque. -/
structure SearchResult where
  collectionCode : Option String
  payload : String
deriving DecidableEq

/-- The upstream `/search` response as `search_statutes` sees it: the
`results` key (absent allowed), the `count` key (absent allowed), and the
remaining fields, kept opaque. -/
structure StatuteResponse where
  results : Option (List SearchResult)
  count : Option Nat
  extra : String
deriving DecidableEq

/-- The filter statutes.py line 155 applies to one entry:
`result.get("collectionCode") in STATUTE_COLLECTIONS`. -/
def isStatuteResult (r : SearchResult) : Bool :=
  match r.collectionCode with
  | some code => statuteCollectionCodes.contains code
  | none => false

/-- The response shaping of statutes.py lines 150-157. -/
def filterStatuteResults (collection : String) (data : StatuteResponse) : StatuteResponse :=
  if collection = "" ∧ data.results.isSome then
    let filtered := (data.results.getD []).filter isStatuteResult
    { data with results := some filtered, count := some filtered.length }
  else data

/-!
## get_packages_by_collection date handling (claim C5)

packages.py lines 115-145.  `datetime.now(UTC) - timedelta(days=365)` is
exact 365-day arithmetic on a UTC instant, modelled as Unix seconds; the
`strftime("%Y-%m-%dT%H:%M:%SZ")` call is modelled by the standard civil-date
conversion of the proleptic Gregorian calendar (Python's own calendar).
-/

/-- Civil date `(year, month, day)` from days since 1970-01-01, proleptic
Gregorian. -/
def civilFromDays (days : Nat) : Nat × Nat × Nat :=
  let z := days + 719468
  let era := z / 146097
  let doe := z % 146097
  let yoe := (doe - doe / 1460 + doe / 36524 - doe / 146096) / 365
  let y := yoe + era * 400
  let doy := doe - (365 * yoe + yoe / 4 - yoe / 100)
  let mp := (5 * doy + 2) / 153
  let d := doy - (153 * mp + 2) / 5 + 1
  let m := if mp < 10 then mp + 3 else mp - 9
  (if m ≤ 2 then y + 1 else y, m, d)

/-- Two-digit zero padding, as `%m`, `%d`, `%H`, `%M`, `%S` produce. -/
def pad2 (n : Nat) : String := if n < 10 then "0" ++ toString n else toString n

/-- `strftime("%Y-%m-%dT%H:%M:%SZ")` on the UTC instant `t` Unix seconds. -/
def formatUtc (t : Nat) : String :=
  let ymd := civilFromDays (t / 86400)
  let s := t % 86400
  toString ymd.1 ++ "-" ++ pad2 ymd.2.1 ++ "-" ++ pad2 ymd.2.2 ++ "T" ++
    pad2 (s / 3600) ++ ":" ++ pad2 (s % 3600 / 60) ++ ":" ++ pad2 (s % 60) ++ "Z"

/-- packages.py lines 117-122: the lower-bound timestamp placed in the path;
`nowSec` is `datetime.now(UTC)` as Unix seconds. -/
def lastModifiedStart (nowSec : Nat) (startDate : String) : String :=
  if startDate = "" then formatUtc (nowSec - 365 * 86400)
  else startDate ++ "T00:00:00Z"

/-- packages.py lines 139-145: the endpoint URL chosen by
`get_packages_by_collection`. -/
def packagesByCollectionUrl (collection startDate endDate : String) (nowSec : Nat) : String :=
  if endDate ≠ "" then
    "https://api.govinfo.gov/collections/" ++ collection ++ "/" ++
      lastModifiedStart nowSec startDate ++ "/" ++ (endDate ++ "T23:59:59Z")
  else
    "https://api.govinfo.gov/collections/" ++ collection ++ "/" ++
      lastModifiedStart nowSec startDate

/-!
## get_package_content (claims C6, C7, C9, C10)

packages.py lines 322-374: endpoint routing by lowercased content type,
text-vs-binary response shaping with base64 for the binary case, and the
distinguished 400 error message.
-/

/-- The base64 alphabet of RFC 4648 §4 (what Python `base64.b64encode`
uses). -/
def b64Alphabet : List Char :=
  "ABCDEFGHIJKLMNOPQRSTUVWXYZabcdefghijklmnopqrstuvwxyz0123456789+/".data

/-- The base64 digit of a 6-bit value. -/
def b64Char (n : Nat) : Char := b64Alphabet.getD n 'A'

/-- The 6-bit value of a base64 digit, `none` off the alphabet. -/
def b64Val (c : Char) : Option Nat := b64Alphabet.indexOf? c

/-- Base64 of a byte list, with `=` padding: the model of
`base64.b64encode`. -/
def base64Encode : List Nat → List Char
  | [] => []
  | [a] => [b64Char (a / 4), b64Char (a % 4 * 16), '=', '=']
  | [a, b] => [b64Char (a / 4), b64Char (a % 4 * 16 + b / 16), b64Char (b % 16 * 4), '=']
  | a :: b :: c :: rest =>
      b64Char (a / 4) :: b64Char (a % 4 * 16 + b / 16) ::
      b64Char (b % 16 * 4 + c / 64) :: b64Char (c % 64) :: base64Encode rest

/-- packages.py line 349: `base64.b64encode(response.content).decode("utf-8")`. -/
def base64EncodeString (bs : List Nat) : String := ⟨base64Encode bs⟩

/-- Strict base64 decoder (RFC 4648), the reference inverse used to state the
round-trip property of the encoder. -/
def base64Decode : List Char → Option (List Nat)
  | [] => some []
  | w :: x :: y :: z :: rest =>
    match b64Val w, b64Val x with
    | some a, some b =>
      if y = '=' ∧ z = '=' ∧ rest = [] then
        if b % 16 = 0 then some [a * 4 + b / 16] else none
      else
        match b64Val y with
        | some c =>
          if z = '=' ∧ rest = [] then
            if c % 4 = 0 then some [a * 4 + b / 16, b % 16 * 16 + c / 4] else none
          else
            match b64Val z with
            | some d =>
              (base64Decode rest).map
                (fun tail => (a * 4 + b / 16) :: (b % 16 * 16 + c / 4) :: (c % 4 * 64 + d) :: tail)
            | none => none
        | none => none
    | _, _ => none
  | _ => none

/-- What `get_package_content` returns on a 2xx response: Python hands back
either the decoded text or the two-key dict of packages.py line 358. -/
inductive ContentResult
  | text (content : String)
  | binaryDict (contentType : String) (base64Content : String)
deriving DecidableEq

/-- The returned value as a Python dict when it is one (packages.py
line 358), `none` for the raw-string returns. -/
def ContentResult.asDict : ContentResult → Option (List (String × String))
  | .text _ => none
  | .binaryDict ct b64 => some [("content_type", ct), ("base64_content", b64)]

/-- packages.py line 323. -/
def content_endpoints : List (String × String) :=
  [("html", "htm"), ("xml", "xml"), ("pdf", "pdf"), ("text", "txt")]

/-- packages.py line 325: `content_endpoints.get(content_type.lower(), "htm")`. -/
def contentEndpoint (contentType : String) : String :=
  (content_endpoints.lookup (lowerStr contentType)).getD "htm"

/-- packages.py lines 336-358: the response shaping on a 2xx response.
`bodyText` is `response.text`, `bodyBytes` is `response.content`. -/
def packageContentResult (contentType bodyText : String) (bodyBytes : List Nat) : ContentResult :=
  if lowerStr contentType ∈ (["html", "xml", "text"] : List String) then
    .text bodyText
  else
    .binaryDict contentType (base64EncodeString bodyBytes)

/-- packages.py lines 360-368: the error message logged and surfaced when the
upstream responds with a non-2xx status. -/
def packageContentErrorMsg (contentType packageId : String) (statusCode : Nat)
    (excText : String) : String :=
  if statusCode = 400 then
    "Content type '" ++ contentType ++ "' is not available for package '" ++
      packageId ++
      "'. Use get_package_summary() to check available formats in the 'download' field. HTTP error: " ++
      excText
  else
    "HTTP error: " ++ excText

/-- The guidance sentence the 400 message carries. -/
def formatGuidance : String :=
  "Use get_package_summary() to check available formats in the 'download' field."

/-!
## Helper lemmas
-/

theorem b64Val_b64Char : ∀ n < 64, b64Val (b64Char n) = some n := by decide

theorem b64Char_ne_eq : ∀ n < 64, b64Char n ≠ '=' := by decide

/-- Decoding inverts encoding on byte lists. -/
theorem base64_roundtrip : ∀ (bs : List Nat), (∀ b ∈ bs, b < 256) →
    base64Decode (base64Encode bs) = some bs
  | [], _ => rfl
  | [a], h => by
      have ha : a < 256 := h a (by simp)
      have h1 : a / 4 < 64 := by omega
      have h2 : a % 4 * 16 < 64 := by omega
      show base64Decode [b64Char (a / 4), b64Char (a % 4 * 16), '=', '='] = some [a]
      simp only [base64Decode, b64Val_b64Char _ h1, b64Val_b64Char _ h2]
      have hm : a % 4 * 16 % 16 = 0 := by omega
      simp [hm]
      omega
  | [a, b], h => by
      have ha : a < 256 := h a (by simp)
      have hb : b < 256 := h b (by simp)
      have h1 : a / 4 < 64 := by omega
      have h2 : a % 4 * 16 + b / 16 < 64 := by omega
      have h3 : b % 16 * 4 < 64 := by omega
      show base64Decode
          [b64Char (a / 4), b64Char (a % 4 * 16 + b / 16), b64Char (b % 16 * 4), '='] =
        some [a, b]
      simp only [base64Decode, b64Val_b64Char _ h1, b64Val_b64Char _ h2,
        b64Val_b64Char _ h3]
      have hy : b64Char (b % 16 * 4) ≠ '=' := b64Char_ne_eq _ h3
      have hm : b % 16 * 4 % 4 = 0 := by omega
      simp [hy, hm]
      constructor <;> omega
  | a :: b :: c :: rest, h => by
      have ha : a < 256 := h a (by simp)
      have hb : b < 256 := h b (by simp)
      have hc : c < 256 := h c (by simp)
      have ih := base64_roundtrip rest (fun x hx => h x (by simp [hx]))
      have h1 : a / 4 < 64 := by omega
      have h2 : a % 4 * 16 + b / 16 < 64 := by omega
      have h3 : b % 16 * 4 + c / 64 < 64 := by omega
      have h4 : c % 64 < 64 := by omega
      show base64Decode
          (b64Char (a / 4) :: b64Char (a % 4 * 16 + b / 16) ::
            b64Char (b % 16 * 4 + c / 64) :: b64Char (c % 64) ::
            base64Encode rest) =
        some (a :: b :: c :: rest)
      simp only [base64Decode, b64Val_b64Char _ h1, b64Val_b64Char _ h2,
        b64Val_b64Char _ h3, b64Val_b64Char _ h4]
      have hy : b64Char (b % 16 * 4 + c / 64) ≠ '=' := b64Char_ne_eq _ h3
      have hz : b64Char (c % 64) ≠ '=' := b64Char_ne_eq _ h4
      simp [hy, hz, ih]
      refine ⟨?_, ?_, ?_⟩ <;> omega

theorem char_toNat_ofNat_of_lt {m : Nat} (h : m < 55296) : (Char.ofNat m).toNat = m := by
  have hv : m.isValidChar := Or.inl h
  simp [Char.ofNat, hv, Char.ofNatAux, Char.toNat, UInt32.toNat]

theorem char_toLower_idem (c : Char) : c.toLower.toLower = c.toLower := by
  unfold Char.toLower
  by_cases h : c.toNat ≥ 65 ∧ c.toNat ≤ 90
  · rw [if_pos h]
    have hv : (Char.ofNat (c.toNat + 32)).toNat = c.toNat + 32 :=
      char_toNat_ofNat_of_lt (by omega)
    rw [if_neg (by omega)]
  · rw [if_neg h, if_neg h]

theorem lowerStr_idem (s : String) : lowerStr (lowerStr s) = lowerStr s := by
  simp only [lowerStr, List.map_map]
  congr 1
  exact List.map_congr_left (fun c _ => char_toLower_idem c)

/-!
## Claim theorems
-/

/-- C1, counterexample: with the API key unset, `get_related_packages` does
NOT raise; it returns the error dict of related.py line 53, so the claim that
every network-backed tool fails by raising is false for this tool. -/
theorem related_packages_missing_key_returns_dict :
    (GovInfo.get_related_packages_preNetwork none).isRaiseValueError = false ∧
    GovInfo.get_related_packages_preNetwork none =
      .returnDict [("error", GovInfo.apiKeyErrorMsg)] := by
  constructor <;> rfl

/-- C1 (amended): with the API key unset (absent or empty), fourteen of the
fifteen network-backed tools raise `ValueError` before issuing any HTTP
request, while `get_related_packages` instead returns the mapping
`[("error", msg)]` without raising and equally before any request. -/
theorem missing_api_key_behavior (apiKey : Option String)
    (h : apiKeyMissing apiKey = true) :
    get_collections_preNetwork apiKey = .raiseValueError apiKeyErrorMsg ∧
    get_packages_by_collection_preNetwork apiKey = .raiseValueError apiKeyErrorMsg ∧
    get_package_summary_preNetwork apiKey = .raiseValueError apiKeyErrorMsg ∧
    get_package_content_preNetwork apiKey = .raiseValueError apiKeyErrorMsg ∧
    get_published_packages_preNetwork apiKey = .raiseValueError apiKeyErrorMsg ∧
    get_published_range_preNetwork apiKey = .raiseValueError apiKeyErrorMsg ∧
    get_granule_related_preNetwork apiKey = .raiseValueError apiKeyErrorMsg ∧
    search_packages_preNetwork apiKey = .raiseValueError apiKeyErrorMsg ∧
    advanced_search_preNetwork apiKey = .raiseValueError apiKeyErrorMsg ∧
    search_statutes_preNetwork apiKey = .raiseValueError apiKeyErrorMsg ∧
    get_uscode_title_preNetwork apiKey = .raiseValueError "GOVINFO_API_KEY not set" ∧
    get_public_laws_by_congress_preNetwork apiKey = .raiseValueError apiKeyErrorMsg ∧
    get_statutes_at_large_preNetwork apiKey = .raiseValueError apiKeyErrorMsg ∧
    get_statute_content_preNetwork apiKey = .raiseValueError apiKeyErrorMsg ∧
    get_related_packages_preNetwork apiKey = .returnDict [("error", apiKeyErrorMsg)] := by
  refine ⟨?_, ?_, ?_, ?_, ?_, ?_, ?_, ?_, ?_, ?_, ?_, ?_, ?_, ?_, ?_⟩ <;>
    simp [get_collections_preNetwork, get_packages_by_collection_preNetwork,
      get_package_summary_preNetwork, get_package_content_preNetwork,
      get_published_packages_preNetwork, get_published_range_preNetwork,
      get_granule_related_preNetwork, search_packages_preNetwork,
      advanced_search_preNetwork, search_statutes_preNetwork,
      get_uscode_title_preNetwork, get_public_laws_by_congress_preNetwork,
      get_statutes_at_large_preNetwork, get_statute_content_preNetwork,
      get_related_packages_preNetwork, h]

/-- Witness for `missing_api_key_behavior` at the concrete unset key `none`. -/
theorem missing_api_key_behavior_witness :
    apiKeyMissing none = true ∧
    get_collections_preNetwork none = .raiseValueError apiKeyErrorMsg ∧
    get_related_packages_preNetwork none = .returnDict [("error", apiKeyErrorMsg)] :=
  ⟨rfl, (missing_api_key_behavior none rfl).1,
    (missing_api_key_behavior none rfl).2.2.2.2.2.2.2.2.2.2.2.2.2.2⟩

/-- C2, counterexample: the claimed all-filters string has `collection` and
`docClass` in swapped positions relative to what search.py lines 74-97
actually build. -/
theorem search_packages_query_claimed_order_false :
    searchPackagesQueryStr "laws" "BILLS" (some 117) "hr" "act" "2020-01-01" "2020-12-31" ≠
      "publishdate:<=2020-12-31 AND publishdate:>=2020-01-01 AND title:\"act\" AND collection:BILLS AND congress:117 AND docClass:hr AND laws" := by
  decide

/-- C2 (amended): the filters are prefixed in source order collection,
congress, docClass, title, then the publish-date bounds outermost, so with
all filters present the query string reads `publishdate:<=E AND
publishdate:>=S AND title:"T" AND docClass:D AND congress:N AND
collection:C AND query`. -/
theorem search_packages_query_shape (query collection : String) (n : Nat)
    (docClass title startDate endDate : String)
    (hc : collection ≠ "") (hd : docClass ≠ "") (ht : title ≠ "")
    (hs : startDate ≠ "") (he : endDate ≠ "") :
    searchPackagesQueryStr query collection (some n) docClass title startDate endDate =
      "publishdate:<=" ++ endDate ++ " AND " ++
        ("publishdate:>=" ++ startDate ++ " AND " ++
          ("title:\"" ++ title ++ "\" AND " ++
            ("docClass:" ++ docClass ++ " AND " ++
              ("congress:" ++ toString n ++ " AND " ++
                ("collection:" ++ collection ++ " AND " ++ query))))) := by
  simp [searchPackagesQueryStr, hc, hd, ht, hs, he]

/-- Witness for `search_packages_query_shape`, evaluated to the literal
query string. -/
theorem search_packages_query_shape_witness :
    searchPackagesQueryStr "laws" "BILLS" (some 117) "hr" "act" "2020-01-01" "2020-12-31" =
      "publishdate:<=2020-12-31 AND publishdate:>=2020-01-01 AND title:\"act\" AND docClass:hr AND congress:117 AND collection:BILLS AND laws" :=
  (search_packages_query_shape "laws" "BILLS" 117 "hr" "act" "2020-01-01" "2020-12-31"
    (by decide) (by decide) (by decide) (by decide) (by decide)).trans (by decide)

/-- C3: with no explicit collection, `search_statutes` sends the four statute
collection codes OR-ed inside parentheses, AND-ed with the parenthesized user
query; in particular for the query `civil rights`. -/
theorem search_statutes_default_collections :
    (∀ q : String, searchStatutesQuery q "" none "" "" "" "" =
      .ok ("(collection:USCODE OR collection:STATUTE OR collection:PLAW OR collection:COMPS) AND (" ++ q ++ ")")) ∧
    searchStatutesQuery "civil rights" "" none "" "" "" "" =
      .ok "(collection:USCODE OR collection:STATUTE OR collection:PLAW OR collection:COMPS) AND (civil rights)" :=
  ⟨fun _ => rfl, rfl⟩

/-- C4: when no explicit collection was requested and the upstream response
holds a `results` list, `search_statutes` keeps, in order, exactly the
entries whose `collectionCode` is one of the four statute codes and sets
`count` to the filtered length; with an explicit valid collection the
response passes through unchanged. -/
theorem search_statutes_postfilter (collection : String) (data : StatuteResponse)
    (rs : List SearchResult) :
    (collection = "" → data.results = some rs →
      filterStatuteResults collection data =
        { data with results := some (rs.filter isStatuteResult),
                    count := some (rs.filter isStatuteResult).length }) ∧
    (statuteCollectionCodes.contains collection = true →
      filterStatuteResults collection data = data) := by
  constructor
  · rintro rfl hres
    simp [filterStatuteResults, hres]
  · intro hmem
    have hne : collection ≠ "" := by
      rintro rfl
      exact absurd hmem (by decide)
    simp [filterStatuteResults, hne]

/-- Witness for `search_statutes_postfilter`: a three-entry response keeps
only the `USCODE` entry with recomputed count, and an explicit `USCODE`
search passes an arbitrary response through unchanged. -/
theorem search_statutes_postfilter_witness :
    filterStatuteResults ""
        ⟨some [⟨some "USCODE", "a"⟩, ⟨some "BILLS", "b"⟩, ⟨none, "c"⟩], some 3, "meta"⟩ =
      ⟨some [⟨some "USCODE", "a"⟩], some 1, "meta"⟩ ∧
    filterStatuteResults "USCODE"
        ⟨some [⟨some "BILLS", "b"⟩], some 1, "meta"⟩ =
      ⟨some [⟨some "BILLS", "b"⟩], some 1, "meta"⟩ :=
  ⟨((search_statutes_postfilter ""
        ⟨some [⟨some "USCODE", "a"⟩, ⟨some "BILLS", "b"⟩, ⟨none, "c"⟩], some 3, "meta"⟩
        [⟨some "USCODE", "a"⟩, ⟨some "BILLS", "b"⟩, ⟨none, "c"⟩]).1 rfl rfl).trans (by decide),
   (search_statutes_postfilter "USCODE"
        ⟨some [⟨some "BILLS", "b"⟩], some 1, "meta"⟩ []).2 (by decide)⟩

/-- C8: `get_public_laws_by_congress` with `law_type="public"` and no other
filter sends `collection:PLAW AND congress:N AND (docClass:public OR
title:public)`; in particular for congress 117. -/
theorem public_laws_query_public :
    (∀ n : Nat, publicLawsQuery n "public" "" "" "" =
      .ok ("collection:PLAW AND congress:" ++ toString n ++
        " AND (docClass:public OR title:public)")) ∧
    publicLawsQuery 117 "public" "" "" "" =
      .ok "collection:PLAW AND congress:117 AND (docClass:public OR title:public)" :=
  ⟨fun _ => rfl, rfl⟩

/-- C5, counterexample: at the UTC instant 2026-10-12T15:30:45Z the default
lower bound is `2025-10-12T15:30:45Z` — the current time-of-day, not the
claimed fixed `T00:00:00Z`. -/
theorem default_start_date_not_midnight :
    lastModifiedStart 1791819045 "" = "2025-10-12T15:30:45Z" ∧
    lastModifiedStart 1791819045 "" ≠ "2025-10-12T00:00:00Z" := by
  constructor <;> decide

/-- C5 (amended): with `start_date` empty, the lower bound is now minus 365
days formatted `strftime("%Y-%m-%dT%H:%M:%SZ")`, keeping the current
time-of-day (the day shifts by exactly 365); with `end_date` given, the
request path carries both timestamps, otherwise only the start timestamp. -/
theorem packages_by_collection_dates (collection startDate endDate : String)
    (nowSec : Nat) (hnow : 365 * 86400 ≤ nowSec) :
    (startDate = "" →
      lastModifiedStart nowSec startDate = formatUtc (nowSec - 365 * 86400) ∧
      (nowSec - 365 * 86400) / 86400 = nowSec / 86400 - 365 ∧
      (nowSec - 365 * 86400) % 86400 = nowSec % 86400) ∧
    (endDate ≠ "" →
      packagesByCollectionUrl collection startDate endDate nowSec =
        "https://api.govinfo.gov/collections/" ++ collection ++ "/" ++
          lastModifiedStart nowSec startDate ++ "/" ++ (endDate ++ "T23:59:59Z")) ∧
    (endDate = "" →
      packagesByCollectionUrl collection startDate endDate nowSec =
        "https://api.govinfo.gov/collections/" ++ collection ++ "/" ++
          lastModifiedStart nowSec startDate) := by
  refine ⟨fun h => ⟨?_, ?_, ?_⟩, fun h => ?_, fun h => ?_⟩
  · simp [lastModifiedStart, h]
  · omega
  · omega
  · simp [packagesByCollectionUrl, h]
  · simp [packagesByCollectionUrl, h]

/-- Witness for `packages_by_collection_dates` at the instant
2026-10-12T15:30:45Z, with and without an end date. -/
theorem packages_by_collection_dates_witness :
    365 * 86400 ≤ 1791819045 ∧
    lastModifiedStart 1791819045 "" = formatUtc (1791819045 - 365 * 86400) ∧
    packagesByCollectionUrl "BILLS" "" "2026-01-01" 1791819045 =
      "https://api.govinfo.gov/collections/" ++ "BILLS" ++ "/" ++
        lastModifiedStart 1791819045 "" ++ "/" ++ ("2026-01-01" ++ "T23:59:59Z") ∧
    packagesByCollectionUrl "BILLS" "" "" 1791819045 =
      "https://api.govinfo.gov/collections/" ++ "BILLS" ++ "/" ++
        lastModifiedStart 1791819045 "" :=
  ⟨by decide,
    ((packages_by_collection_dates "BILLS" "" "" 1791819045 (by decide)).1 rfl).1,
    (packages_by_collection_dates "BILLS" "" "2026-01-01" 1791819045 (by decide)).2.1
      (by decide),
    (packages_by_collection_dates "BILLS" "" "" 1791819045 (by decide)).2.2 rfl⟩

/-- Merging the literal pieces around the guidance sentence of the 400
message. -/
theorem guidance_merge (s : String) :
    "'. " ++ (formatGuidance ++ (" HTTP error: " ++ s)) =
      "'. Use get_package_summary() to check available formats in the 'download' field. HTTP error: " ++
        s := by
  rw [← String.append_assoc, ← String.append_assoc]
  rfl

/-- C7: on an upstream 400 the surfaced message carries the guidance sentence
directing the caller to the summary's `download` formats; on any other
non-2xx status the message is the bare generic HTTP error. -/
theorem content_error_message_400 (contentType packageId excText : String)
    (status : Nat) :
    (status = 400 →
      packageContentErrorMsg contentType packageId status excText =
        "Content type '" ++ contentType ++ "' is not available for package '" ++
          packageId ++ "'. " ++ (formatGuidance ++ (" HTTP error: " ++ excText))) ∧
    (status ≠ 400 →
      packageContentErrorMsg contentType packageId status excText =
        "HTTP error: " ++ excText) := by
  constructor
  · rintro rfl
    simp [packageContentErrorMsg, String.append_assoc, guidance_merge]
  · intro h
    simp [packageContentErrorMsg, h]

/-- Witness for `content_error_message_400` at statuses 400 and 404. -/
theorem content_error_message_400_witness :
    (400 : Nat) = 400 ∧
    packageContentErrorMsg "pdf" "BILLS-1" 400 "boom" =
      "Content type '" ++ "pdf" ++ "' is not available for package '" ++
        "BILLS-1" ++ "'. " ++ (formatGuidance ++ (" HTTP error: " ++ "boom")) ∧
    packageContentErrorMsg "pdf" "BILLS-1" 404 "boom" = "HTTP error: " ++ "boom" :=
  ⟨rfl, (content_error_message_400 "pdf" "BILLS-1" "boom" 400).1 rfl,
    (content_error_message_400 "pdf" "BILLS-1" "boom" 404).2 (by decide)⟩

/-- C6: on a successful response, `get_package_content` with content type
`pdf` returns the mapping whose keys are exactly `content_type` and
`base64_content`, and base64-decoding the `base64_content` string yields
exactly the response bytes. -/
theorem pdf_content_base64_roundtrip (bodyText : String) (bodyBytes : List Nat)
    (h : ∀ b ∈ bodyBytes, b < 256) :
    packageContentResult "pdf" bodyText bodyBytes =
      .binaryDict "pdf" (base64EncodeString bodyBytes) ∧
    (packageContentResult "pdf" bodyText bodyBytes).asDict =
      some [("content_type", "pdf"), ("base64_content", base64EncodeString bodyBytes)] ∧
    base64Decode (base64EncodeString bodyBytes).data = some bodyBytes := by
  refine ⟨rfl, rfl, ?_⟩
  show base64Decode (base64Encode bodyBytes) = some bodyBytes
  exact base64_roundtrip bodyBytes h

/-- Witness for `pdf_content_base64_roundtrip` on the bytes of `%PDF`. -/
theorem pdf_content_base64_roundtrip_witness :
    (∀ b ∈ ([37, 80, 68, 70] : List Nat), b < 256) ∧
    packageContentResult "pdf" "" [37, 80, 68, 70] =
      .binaryDict "pdf" (base64EncodeString [37, 80, 68, 70]) ∧
    base64Decode (base64EncodeString [37, 80, 68, 70]).data = some [37, 80, 68, 70] :=
  ⟨by decide, (pdf_content_base64_roundtrip "" [37, 80, 68, 70] (by decide)).1,
    (pdf_content_base64_roundtrip "" [37, 80, 68, 70] (by decide)).2.2⟩

/-- C9: a content type whose lowercase form is none of html, xml, pdf, text
is routed to the fallback `htm` endpoint yet answered with the binary base64
wrapper, because the textual branch only matches html, xml, text. -/
theorem unknown_content_type_binary (contentType bodyText : String)
    (bodyBytes : List Nat)
    (h : lowerStr contentType ∉ (["html", "xml", "pdf", "text"] : List String)) :
    contentEndpoint contentType = "htm" ∧
    packageContentResult contentType bodyText bodyBytes =
      .binaryDict contentType (base64EncodeString bodyBytes) := by
  simp only [List.mem_cons, List.not_mem_nil, or_false] at h
  push_neg at h
  obtain ⟨h1, h2, h3, h4⟩ := h
  have e1 : (lowerStr contentType == "html") = false := by simp [beq_iff_eq, h1]
  have e2 : (lowerStr contentType == "xml") = false := by simp [beq_iff_eq, h2]
  have e3 : (lowerStr contentType == "pdf") = false := by simp [beq_iff_eq, h3]
  have e4 : (lowerStr contentType == "text") = false := by simp [beq_iff_eq, h4]
  refine ⟨?_, ?_⟩
  · simp [contentEndpoint, content_endpoints, List.lookup, e1, e2, e3, e4]
  · simp [packageContentResult, h1, h2, h4]

/-- Witness for `unknown_content_type_binary` at the content type `foo`. -/
theorem unknown_content_type_binary_witness :
    lowerStr "foo" ∉ (["html", "xml", "pdf", "text"] : List String) ∧
    contentEndpoint "foo" = "htm" ∧
    packageContentResult "foo" "body" [1, 2] =
      .binaryDict "foo" (base64EncodeString [1, 2]) :=
  ⟨by decide, (unknown_content_type_binary "foo" "body" [1, 2] (by decide)).1,
    (unknown_content_type_binary "foo" "body" [1, 2] (by decide)).2⟩

/-- C10: `get_package_content` routes by the lowercased content type, so any
casing requests the same endpoint and takes the same branch as its lowercase
form; textual results are identical, and the binary wrapper differs only in
the echoed `content_type` field. -/
theorem content_type_case_insensitive (c bodyText : String) (bodyBytes : List Nat) :
    contentEndpoint c = contentEndpoint (lowerStr c) ∧
    (lowerStr c ∈ (["html", "xml", "text"] : List String) →
      packageContentResult c bodyText bodyBytes =
        packageContentResult (lowerStr c) bodyText bodyBytes) ∧
    (lowerStr c ∉ (["html", "xml", "text"] : List String) →
      packageContentResult c bodyText bodyBytes =
        .binaryDict c (base64EncodeString bodyBytes) ∧
      packageContentResult (lowerStr c) bodyText bodyBytes =
        .binaryDict (lowerStr c) (base64EncodeString bodyBytes)) := by
  refine ⟨?_, fun h => ?_, fun h => ⟨?_, ?_⟩⟩
  · simp [contentEndpoint, lowerStr_idem]
  · simp [packageContentResult, lowerStr_idem, h]
  · simp [packageContentResult, h]
  · simp [packageContentResult, lowerStr_idem, h]

/-- Witness for `content_type_case_insensitive` at `XML` (textual) and `PDF`
(endpoint routing). -/
theorem content_type_case_insensitive_witness :
    lowerStr "XML" ∈ (["html", "xml", "text"] : List String) ∧
    packageContentResult "XML" "body" [1] =
      packageContentResult (lowerStr "XML") "body" [1] ∧
    contentEndpoint "PDF" = contentEndpoint (lowerStr "PDF") :=
  ⟨by decide, (content_type_case_insensitive "XML" "body" [1]).2.1 (by decide),
    (content_type_case_insensitive "PDF" "body" [1]).1⟩

end GovInfo
